import Mathlib

/-!
Shallow embedding of the warrant data-access layer:
the ambient-transaction scope manager (SQL.WithinTransaction), the
capability-handle error classification (SqlTx / SQL operation wrappers),
and the object-type repository (MySQLRepository.List / DeleteByTypeId),
together with theorems checking the specification's claims against it.

Sources embedded: pkg/database sql.go (the unnamed source file) and
pkg/authz/objecttype/mysql.go.
-/

/-- Errors of the embedded layer.  `noRows` is the sql.ErrNoRows sentinel;
`wrapped msg cause` is errors.Wrap(cause, msg); `recordNotFound` is
service.NewRecordNotFoundError(recordType, recordId); `other` stands for
any other driver-level error. -/
inductive Err where
  | noRows
  | wrapped (msg : String) (cause : Err)
  | recordNotFound (rtype : String) (rid : String)
  | other (msg : String)
deriving DecidableEq, Repr

namespace SqlTx

/-- SqlTx.ExecContext error path: pass sql.ErrNoRows through unchanged,
wrap any other error as errors.Wrap(err, "sql error"). -/
def ExecContext (err : Option Err) : Option Err :=
  match err with
  | none => none
  | some Err.noRows => some Err.noRows
  | some e => some (Err.wrapped "sql error" e)

/-- SqlTx.GetContext error path (same switch as ExecContext). -/
def GetContext (err : Option Err) : Option Err :=
  match err with
  | none => none
  | some Err.noRows => some Err.noRows
  | some e => some (Err.wrapped "sql error" e)

/-- SqlTx.NamedExecContext error path. -/
def NamedExecContext (err : Option Err) : Option Err :=
  match err with
  | none => none
  | some Err.noRows => some Err.noRows
  | some e => some (Err.wrapped "sql error" e)

/-- SqlTx.QueryContext error path. -/
def QueryContext (err : Option Err) : Option Err :=
  match err with
  | none => none
  | some Err.noRows => some Err.noRows
  | some e => some (Err.wrapped "sql error" e)

/-- SqlTx.SelectContext error path. -/
def SelectContext (err : Option Err) : Option Err :=
  match err with
  | none => none
  | some Err.noRows => some Err.noRows
  | some e => some (Err.wrapped "sql error" e)

end SqlTx

namespace SQL

/-- SQL.ExecContext error path: pass sql.ErrNoRows through unchanged,
wrap any other error with its classification message. -/
def ExecContext (err : Option Err) : Option Err :=
  match err with
  | none => none
  | some Err.noRows => some Err.noRows
  | some e => some (Err.wrapped "Error when calling sql ExecContext" e)

/-- SQL.GetContext error path. -/
def GetContext (err : Option Err) : Option Err :=
  match err with
  | none => none
  | some Err.noRows => some Err.noRows
  | some e => some (Err.wrapped "Error when calling sql GetContext" e)

/-- SQL.NamedExecContext error path. -/
def NamedExecContext (err : Option Err) : Option Err :=
  match err with
  | none => none
  | some Err.noRows => some Err.noRows
  | some e => some (Err.wrapped "Error when calling sql NamedExecContext" e)

/-- SQL.QueryContext error path. -/
def QueryContext (err : Option Err) : Option Err :=
  match err with
  | none => none
  | some Err.noRows => some Err.noRows
  | some e => some (Err.wrapped "Error when calling sql QueryContext" e)

/-- SQL.SelectContext error path. -/
def SelectContext (err : Option Err) : Option Err :=
  match err with
  | none => none
  | some Err.noRows => some Err.noRows
  | some e => some (Err.wrapped "Error when calling sql SelectContext" e)

end SQL

/-- Outcomes of the underlying sqlx.DB / sqlx.Tx primitives Beginx, Commit
and Rollback for one WithinTransaction execution: `none` means the
primitive succeeds, `some e` that it fails with e. -/
structure DB where
  beginErr : Option Err
  commitErr : Option Err
  rollbackErr : Option Err
deriving DecidableEq, Repr

/-- The call context: `hasTx` is whether ctx.Value(txKey{}) holds a *SqlTx
(a transaction scope is already ambient). -/
structure Ctx where
  hasTx : Bool
deriving DecidableEq, Repr

/-- How a unit of work (txFunc) finishes: it returns an error value
(possibly nil), or it panics with value v. -/
inductive UnitResult where
  | ok (e : Option Err)
  | panicked (v : Nat)
deriving DecidableEq, Repr

/-- Physical transaction operations, each recorded with the outcome the
underlying primitive reported (`none` = success). -/
inductive Op where
  | beginTx (res : Option Err)
  | commitTx (res : Option Err)
  | rollbackTx (res : Option Err)
deriving DecidableEq, Repr

/-- Whether an op is a physical begin. -/
def Op.isBegin : Op → Bool
  | Op.beginTx _ => true
  | _ => false

/-- Whether an op is a physical commit or rollback. -/
def Op.isFinish : Op → Bool
  | Op.commitTx _ => true
  | Op.rollbackTx _ => true
  | _ => false

/-- SQL.WithinTransaction.  A unit of work maps the context it receives to
its outcome plus the physical operations it performed itself (via nested
scope-manager calls).  The embedding follows the Go source exactly:

* if the context already carries a transaction scope, txFunc runs on that
  context and its error is returned with no physical operation added;
* otherwise Beginx runs; on begin failure the wrapped begin error returns;
* on begin success txFunc runs on a child context carrying the scope, and
  the deferred block then rolls back (on panic or non-nil error) or
  commits (on nil error).

The Go function's return type is an unnamed `error`, so `return err`
copies the unit of work's error into the result slot before the deferred
block runs; the deferred assignments `err = tx.Rollback()` /
`err = tx.Commit()` write a local variable that only feeds the logger and
never change the already-set return value.  The trace therefore records
the commit/rollback attempt and its outcome while the returned value is
exactly what `return err` (or the re-raised panic) produced. -/
def WithinTransaction (db : DB) (ctx : Ctx) (txFunc : Ctx → UnitResult × List Op) :
    UnitResult × List Op :=
  if ctx.hasTx then
    txFunc ctx
  else
    match db.beginErr with
    | some e =>
        (UnitResult.ok (some (Err.wrapped "Error beginning sql transaction" e)),
         [Op.beginTx (some e)])
    | none =>
        let res := txFunc { hasTx := true }
        match res.1 with
        | UnitResult.panicked v =>
            (UnitResult.panicked v,
             Op.beginTx none :: res.2 ++ [Op.rollbackTx db.rollbackErr])
        | UnitResult.ok (some e) =>
            (UnitResult.ok (some e),
             Op.beginTx none :: res.2 ++ [Op.rollbackTx db.rollbackErr])
        | UnitResult.ok none =>
            (UnitResult.ok none,
             Op.beginTx none :: res.2 ++ [Op.commitTx db.commitErr])

/-- n WithinTransaction layers wrapped around a unit of work, each layer
calling the next on the context it received, the innermost being the
plain unit of work. -/
def nestedRun (db : DB) : Nat → (Ctx → UnitResult × List Op) → Ctx → UnitResult × List Op
  | 0, work => work
  | n + 1, work => fun ctx => WithinTransaction db ctx (nestedRun db n work)

/-- SQL values bound to query placeholders (the Go side passes them as
interface arguments): strings (ids, LIKE patterns) and integers (sort
values, LIMIT). -/
inductive Val where
  | str (s : String)
  | int (n : Int)
deriving DecidableEq, Repr

/-- Code-point comparison of two characters. -/
def chLtb (a b : Char) : Bool := decide (a.val < b.val)

/-- Lexicographic comparison of two character sequences by code point,
the string order the SQL layer compares ids with. -/
def strLtb : List Char → List Char → Bool
  | [], [] => false
  | [], _ :: _ => true
  | _ :: _, [] => false
  | a :: as, b :: bs => chLtb a b || (a == b && strLtb as bs)

/-- Strict SQL comparison of two bound/column values; comparisons across
kinds do not arise in the embedded queries and are false. -/
def Val.ltb : Val → Val → Bool
  | Val.str a, Val.str b => strLtb a.data b.data
  | Val.int a, Val.int b => decide (a < b)
  | _, _ => false

/-- SQL equality of two values. -/
def Val.eqb : Val → Val → Bool
  | Val.str a, Val.str b => decide (a = b)
  | Val.int a, Val.int b => decide (a = b)
  | _, _ => false

/-- middleware.SortOrder: SortOrderAsc or SortOrderDesc. -/
inductive SortOrder where
  | asc
  | desc
deriving DecidableEq, Repr

/-- middleware.ListParams as used by MySQLRepository.List. -/
structure ListParams where
  Query : String
  SortBy : String
  sortOrder : SortOrder
  AfterId : String
  AfterValue : Option Val
  BeforeId : String
  BeforeValue : Option Val
  Limit : Nat
deriving DecidableEq, Repr

/-- A row of the objectType table as far as List touches it: the typeId
column, the value the row has in the (non-typeId) sort column, and the
soft-delete marker (deletedAt IS NOT NULL). -/
structure Row where
  typeId : String
  sortVal : Val
  deleted : Bool
deriving DecidableEq, Repr

/-- Value of a column of a row: typeId is the string key, any other
column name reads the row's sort value. -/
def fieldVal (col : String) (r : Row) : Val :=
  if col = "typeId" then Val.str r.typeId else r.sortVal

/-- SQL LIKE matching over characters: percent matches any run, an
underscore matches one character.  List only builds patterns of the shape
percent-term-percent (substring match). -/
def likeMatch : List Char → List Char → Bool
  | [], ts => ts.isEmpty
  | p :: ps, ts =>
    if p = '%' then
      likeMatch ps ts ||
        (match ts with
         | [] => false
         | _ :: ts2 => likeMatch (p :: ps) ts2)
    else
      match ts with
      | [] => false
      | t :: ts2 => (p = '_' || p == t) && likeMatch ps ts2
termination_by ps ts => ps.length + ts.length

/-- The WHERE conditions MySQLRepository.List appends to the base query
(deletedAt IS NULL is handled by the row filter directly):
`likeTypeId` is "typeId LIKE ?" (one placeholder); `cursorGt` is
"(SortBy > ? OR (typeId > ? AND SortBy = ?))" (three placeholders);
`cursorLt` the same with "<"; `typeIdGt` / `typeIdLt` are
"typeId > ?" / "typeId < ?" (one placeholder). -/
inductive Cond where
  | likeTypeId
  | cursorGt
  | cursorLt
  | typeIdGt
  | typeIdLt
deriving DecidableEq, Repr

/-- Number of ? placeholders each condition contains. -/
def condArity : Cond → Nat
  | Cond.likeTypeId => 1
  | Cond.cursorGt => 3
  | Cond.cursorLt => 3
  | Cond.typeIdGt => 1
  | Cond.typeIdLt => 1

/-- The query MySQLRepository.List assembles: the conditions appended to
the WHERE clause in source order, and the replacements list bound to the
placeholders, ending with the LIMIT argument.  Each step mirrors one
branch of the source, including the two searchTermReplacement appends in
the free-text branch and the AfterId appends in the BeforeValue-absent
branch. -/
def buildQuery (p : ListParams) : List Cond × List Val :=
  let start : List Cond × List Val := ([], [])
  let step1 : List Cond × List Val :=
    if p.Query ≠ "" then
      (start.1 ++ [Cond.likeTypeId],
       start.2 ++ [Val.str ("%" ++ p.Query ++ "%"), Val.str ("%" ++ p.Query ++ "%")])
    else start
  let step2 : List Cond × List Val :=
    if p.AfterId ≠ "" then
      match p.AfterValue with
      | some v =>
          if p.sortOrder = SortOrder.asc then
            (step1.1 ++ [Cond.cursorGt], step1.2 ++ [v, Val.str p.AfterId, v])
          else
            (step1.1 ++ [Cond.cursorLt], step1.2 ++ [v, Val.str p.AfterId, v])
      | none =>
          if p.sortOrder = SortOrder.asc then
            (step1.1 ++ [Cond.typeIdGt], step1.2 ++ [Val.str p.AfterId])
          else
            (step1.1 ++ [Cond.typeIdLt], step1.2 ++ [Val.str p.AfterId])
    else step1
  let step3 : List Cond × List Val :=
    if p.BeforeId ≠ "" then
      match p.BeforeValue with
      | some v =>
          if p.sortOrder = SortOrder.asc then
            (step2.1 ++ [Cond.cursorLt], step2.2 ++ [v, Val.str p.BeforeId, v])
          else
            (step2.1 ++ [Cond.cursorGt], step2.2 ++ [v, Val.str p.BeforeId, v])
      | none =>
          if p.sortOrder = SortOrder.asc then
            (step2.1 ++ [Cond.typeIdLt], step2.2 ++ [Val.str p.AfterId])
          else
            (step2.1 ++ [Cond.typeIdGt], step2.2 ++ [Val.str p.AfterId])
    else step2
  (step3.1, step3.2 ++ [Val.int (Int.ofNat p.Limit)])

/-- Positional binding: the arguments a condition consumes from the front
of the replacements list, and the remaining replacements. -/
def argsFor : Cond → List Val → List Val × List Val
  | Cond.likeTypeId, a :: rest => ([a], rest)
  | Cond.cursorGt, a :: b :: c :: rest => ([a, b, c], rest)
  | Cond.cursorLt, a :: b :: c :: rest => ([a, b, c], rest)
  | Cond.typeIdGt, a :: rest => ([a], rest)
  | Cond.typeIdLt, a :: rest => ([a], rest)
  | _, args => ([], args)

/-- Bind the replacements to the conditions left to right. -/
def splitArgs : List Cond → List Val → List (Cond × List Val)
  | [], _ => []
  | c :: cs, args =>
    let (a, rest) := argsFor c args
    (c, a) :: splitArgs cs rest

/-- Truth of one bound condition on a row.  sortCol is the SortBy column
name spliced into the condition text. -/
def evalCond (sortCol : String) : Cond → List Val → Row → Bool
  | Cond.likeTypeId, [Val.str pat], r => likeMatch pat.toList r.typeId.toList
  | Cond.cursorGt, [v1, id1, v2], r =>
      Val.ltb v1 (fieldVal sortCol r) ||
        (Val.ltb id1 (Val.str r.typeId) && Val.eqb (fieldVal sortCol r) v2)
  | Cond.cursorLt, [v1, id1, v2], r =>
      Val.ltb (fieldVal sortCol r) v1 ||
        (Val.ltb (Val.str r.typeId) id1 && Val.eqb (fieldVal sortCol r) v2)
  | Cond.typeIdGt, [idv], r => Val.ltb idv (Val.str r.typeId)
  | Cond.typeIdLt, [idv], r => Val.ltb (Val.str r.typeId) idv
  | _, _, _ => false

/-- The full WHERE predicate List builds (beyond deletedAt IS NULL):
every appended condition, with the replacements bound positionally. -/
def condsPred (p : ListParams) (r : Row) : Bool :=
  (splitArgs (buildQuery p).1 (buildQuery p).2).all
    (fun ca => evalCond p.SortBy ca.1 ca.2 r)

/-- The ORDER BY key columns List emits: SortBy then typeId unless SortBy
is the literal "objectType", in which case typeId alone; the single
SortOrder direction applies to every key. -/
def orderByKeys (p : ListParams) : List String :=
  if p.SortBy ≠ "objectType" then [p.SortBy, "typeId"] else ["typeId"]

/-- Ordering on the Val kinds: ints before strings, then the value order.
Only like-kinded comparisons arise in the embedded queries. -/
def cmpVal : Val → Val → Ordering
  | Val.int a, Val.int b =>
      if a < b then Ordering.lt else if b < a then Ordering.gt else Ordering.eq
  | Val.str a, Val.str b =>
      if strLtb a.data b.data then Ordering.lt
      else if strLtb b.data a.data then Ordering.gt
      else Ordering.eq
  | Val.int _, Val.str _ => Ordering.lt
  | Val.str _, Val.int _ => Ordering.gt

/-- Lexicographic comparison of two rows under a key-column list. -/
def cmpRows (keys : List String) (a b : Row) : Ordering :=
  match keys with
  | [] => Ordering.eq
  | k :: ks =>
    match cmpVal (fieldVal k a) (fieldVal k b) with
    | Ordering.eq => cmpRows ks a b
    | o => o

/-- Row comparison in the requested direction. -/
def rowLe (keys : List String) (ord : SortOrder) (a b : Row) : Bool :=
  match ord with
  | SortOrder.asc => (cmpRows keys a b).isLE
  | SortOrder.desc => (cmpRows keys b a).isLE

/-- Insert a row into a sorted list. -/
def insertRow (le : Row → Row → Bool) (r : Row) : List Row → List Row
  | [] => [r]
  | x :: xs => if le r x then r :: x :: xs else x :: insertRow le r xs

/-- Insertion sort of the result rows. -/
def sortRows (le : Row → Row → Bool) : List Row → List Row
  | [] => []
  | x :: xs => insertRow le x (sortRows le xs)

namespace MySQLRepository

/-- MySQLRepository.List over a table of rows: build the query, and if the
bound replacements do not line up one-to-one with the placeholders the
driver rejects the statement (result `none`).  Otherwise keep the live
rows satisfying every condition, sort them by the ORDER BY keys in the
requested direction, apply LIMIT, and return the typeIds in order. -/
def listObjectTypes (p : ListParams) (rows : List Row) : Option (List String) :=
  let conds := (buildQuery p).1
  let repl := (buildQuery p).2
  let n := (conds.map condArity).sum
  if repl.length = n + 1 then
    let lim : Nat :=
      match repl.drop n with
      | [Val.int m] => m.toNat
      | _ => 0
    let kept := rows.filter (fun r => !r.deleted && condsPred p r)
    let sorted := sortRows (rowLe (orderByKeys p) p.sortOrder) kept
    some ((sorted.take lim).map Row.typeId)
  else
    none

/-- The soft-delete UPDATE of DeleteByTypeId on the table: set deletedAt
on live rows with the given typeId; the driver reports the number of rows
the statement affected. -/
def execSoftDelete (rows : List Row) (tid : String) : List Row × Nat :=
  (rows.map (fun r =>
     if r.typeId = tid && !r.deleted then { r with deleted := true } else r),
   (rows.filter (fun r => r.typeId = tid && !r.deleted)).length)

/-- MySQLRepository.DeleteByTypeId: run the soft-delete UPDATE through
SQL.ExecContext (driverErr being what the driver reported), then map
sql.ErrNoRows to RecordNotFound and return any other error unchanged;
on success return the updated table, the affected count, and nil. -/
def DeleteByTypeId (rows : List Row) (tid : String) (driverErr : Option Err) :
    List Row × Nat × Option Err :=
  match SQL.ExecContext driverErr with
  | none =>
      let (rows2, n) := execSoftDelete rows tid
      (rows2, n, none)
  | some Err.noRows => (rows, 0, some (Err.recordNotFound "ObjectType" tid))
  | some e => (rows, 0, some e)

end MySQLRepository

/-- The forward-cursor predicate as the spec words it (claim C6), for
comparison with the predicate List builds: sortField above afterValue OR
(sortField = afterValue AND id above afterId), "above" being > for
ascending and < for descending order; with afterValue absent, a plain id
comparison with the same operator. -/
def claimForwardPred (p : ListParams) (r : Row) : Bool :=
  match p.AfterValue with
  | some v =>
    match p.sortOrder with
    | SortOrder.asc =>
        Val.ltb v (fieldVal p.SortBy r) ||
          (Val.eqb (fieldVal p.SortBy r) v &&
             Val.ltb (Val.str p.AfterId) (Val.str r.typeId))
    | SortOrder.desc =>
        Val.ltb (fieldVal p.SortBy r) v ||
          (Val.eqb (fieldVal p.SortBy r) v &&
             Val.ltb (Val.str r.typeId) (Val.str p.AfterId))
  | none =>
    match p.sortOrder with
    | SortOrder.asc => Val.ltb (Val.str p.AfterId) (Val.str r.typeId)
    | SortOrder.desc => Val.ltb (Val.str r.typeId) (Val.str p.AfterId)

/-- The ORDER BY key columns as the spec words them (claim C5): sortBy
then the tie-break identifier, unless sortBy already is the tie-break
identifier, in which case that one field alone. -/
def specOrderKeys (p : ListParams) : List String :=
  if p.SortBy = "typeId" then ["typeId"] else [p.SortBy, "typeId"]

/-- The ORDER BY key columns restated from the source (amended claim C5):
the special single-key case triggers on the literal "objectType", not on
the tie-break identifier. -/
def amendedOrderKeys (p : ListParams) : List String :=
  if p.SortBy = "objectType" then ["typeId"] else [p.SortBy, "typeId"]

/-- The data set of the spec's pagination properties: (sortValue, id)
pairs (1,a), (1,b), (2,c), (3,d), none soft-deleted. -/
def rows4 : List Row :=
  [⟨"a", Val.int 1, false⟩, ⟨"b", Val.int 1, false⟩,
   ⟨"c", Val.int 2, false⟩, ⟨"d", Val.int 3, false⟩]

/-- Row b of the data set. -/
def rowB : Row := ⟨"b", Val.int 1, false⟩

/-- Forward-cursor request of the spec: afterId = a, afterValue = 1,
ascending, no filter, limit 10. -/
def afterParams : ListParams :=
  ⟨"", "name", SortOrder.asc, "a", some (Val.int 1), "", none, 10⟩

/-- Backward-cursor request of the spec: beforeId = c, beforeValue = 2,
ascending. -/
def beforeParams : ListParams :=
  ⟨"", "name", SortOrder.asc, "", none, "c", some (Val.int 2), 10⟩

/-- Backward-cursor request with beforeValue absent: beforeId = c alone
(afterId empty). -/
def beforeNoValueParams : ListParams :=
  ⟨"", "name", SortOrder.asc, "", none, "c", none, 10⟩

/-- Free-text request combined with a forward cursor: query "b",
afterId = a, afterValue = 1, ascending. -/
def likeParams : ListParams :=
  ⟨"b", "name", SortOrder.asc, "a", some (Val.int 1), "", none, 10⟩

/-- List request sorting by "objectType". -/
def orderParams : ListParams :=
  ⟨"", "objectType", SortOrder.asc, "", none, "", none, 10⟩

/-- DB whose commit fails and everything else succeeds. -/
def dbCommitFails : DB := ⟨none, some (Err.other "commit failed"), none⟩

/-- DB whose rollback fails and everything else succeeds. -/
def dbRollbackFails : DB := ⟨none, none, some (Err.other "rollback failed")⟩

/-- DB where every primitive succeeds. -/
def dbOk : DB := ⟨none, none, none⟩

/-- A unit of work that returns nil and performs no physical operation. -/
def okWork : Ctx → UnitResult × List Op := fun _ => (UnitResult.ok none, [])

/-- A unit of work that fails with its own error. -/
def failingWork : Ctx → UnitResult × List Op :=
  fun _ => (UnitResult.ok (some (Err.other "unit of work failed")), [])

/-- A unit of work that panics with value 7. -/
def panickingWork : Ctx → UnitResult × List Op :=
  fun _ => (UnitResult.panicked 7, [])

/-- Reusing the ambient scope: on a context that already carries a
transaction, WithinTransaction is the unit of work itself. -/
lemma withinTransaction_reuse (db : DB) (ctx : Ctx)
    (f : Ctx → UnitResult × List Op) (h : ctx.hasTx = true) :
    WithinTransaction db ctx f = f ctx := by
  simp [WithinTransaction, h]

/-- Any tower of nested WithinTransaction calls collapses onto the unit
of work once the context carries a transaction scope. -/
lemma nestedRun_reuse (db : DB) (work : Ctx → UnitResult × List Op) :
    ∀ (n : Nat) (c : Ctx), c.hasTx = true → nestedRun db n work c = work c := by
  intro n
  induction n with
  | zero => intro c _; rfl
  | succ k ih =>
    intro c h
    show WithinTransaction db c (nestedRun db k work) = work c
    rw [withinTransaction_reuse db c _ h]
    exact ih c h

/-- Claim C1 (code divergence, evaluated at the failing input): an
outermost WithinTransaction whose unit of work returns nil and whose
commit fails returns nil — the commit was attempted and its failure only
logged, because the deferred assignment cannot change the already-set
unnamed return value — while the claim requires the non-nil commit error
to be the return value of run. -/
theorem c1_commit_failure_swallowed :
    WithinTransaction dbCommitFails ⟨false⟩ okWork
      = (UnitResult.ok none,
         [Op.beginTx none, Op.commitTx (some (Err.other "commit failed"))]) := by
  decide

/-- Claim C2: when the context already carries a transaction scope, run
invokes the unit of work directly on that context and returns its outcome
with no physical operation added; and for every nesting depth of run
calls on one context chain (begin succeeding, the innermost unit of work
performing no physical operation itself), the trace holds exactly one
physical begin and exactly one physical commit-or-rollback. -/
theorem c2_nested_exactly_once (db : DB) (n : Nat)
    (work : Ctx → UnitResult × List Op) (ctx : Ctx)
    (hb : db.beginErr = none) (hw : ∀ c, (work c).2 = []) :
    (ctx.hasTx = true → WithinTransaction db ctx work = work ctx) ∧
    (ctx.hasTx = false →
      (nestedRun db (n + 1) work ctx).2.countP Op.isBegin = 1 ∧
      (nestedRun db (n + 1) work ctx).2.countP Op.isFinish = 1) := by
  constructor
  · intro h
    exact withinTransaction_reuse db ctx work h
  · intro h
    have hinner : nestedRun db n work { hasTx := true } = work { hasTx := true } :=
      nestedRun_reuse db work n { hasTx := true } rfl
    have hops : (work { hasTx := true }).2 = [] := hw { hasTx := true }
    show (WithinTransaction db ctx (nestedRun db n work)).2.countP Op.isBegin = 1 ∧
      (WithinTransaction db ctx (nestedRun db n work)).2.countP Op.isFinish = 1
    rcases hres : (work { hasTx := true }).1 with e | v
    · rcases e with _ | e <;>
        simp [WithinTransaction, h, hb, hinner, hres, hops,
              List.countP_cons, List.countP_nil, Op.isBegin, Op.isFinish]
    · simp [WithinTransaction, h, hb, hinner, hres, hops,
            List.countP_cons, List.countP_nil, Op.isBegin, Op.isFinish]

/-- Claim C2 witness: three nested layers over a no-op unit of work on a
database whose begin succeeds perform exactly one begin and one
commit-or-rollback. -/
theorem c2_nested_exactly_once_witness :
    dbOk.beginErr = none ∧ (∀ c, (okWork c).2 = []) ∧
    (Ctx.mk false).hasTx = false ∧
    ((nestedRun dbOk (2 + 1) okWork ⟨false⟩).2.countP Op.isBegin = 1 ∧
     (nestedRun dbOk (2 + 1) okWork ⟨false⟩).2.countP Op.isFinish = 1) :=
  ⟨rfl, fun _ => rfl, rfl,
   (c2_nested_exactly_once dbOk 2 okWork ⟨false⟩ rfl (fun _ => rfl)).2 rfl⟩

/-- Claim C7: in an outermost run whose begin succeeds, a unit of work
returning a non-nil error makes run return exactly that error, rollback
being attempted with whatever outcome the database gives it (a rollback
failure is only logged and never overrides the causal error). -/
theorem c7_unit_error_returned_unchanged (db : DB) (ctx : Ctx)
    (f : Ctx → UnitResult × List Op) (e : Err)
    (hctx : ctx.hasTx = false) (hb : db.beginErr = none)
    (hf : (f { hasTx := true }).1 = UnitResult.ok (some e)) :
    WithinTransaction db ctx f
      = (UnitResult.ok (some e),
         Op.beginTx none :: (f { hasTx := true }).2
           ++ [Op.rollbackTx db.rollbackErr]) := by
  simp [WithinTransaction, hctx, hb, hf]

/-- Claim C7 witness: with a failing rollback, the unit of work's own
error is still the value run returns. -/
theorem c7_unit_error_returned_unchanged_witness :
    (Ctx.mk false).hasTx = false ∧ dbRollbackFails.beginErr = none ∧
    (failingWork { hasTx := true }).1
      = UnitResult.ok (some (Err.other "unit of work failed")) ∧
    WithinTransaction dbRollbackFails ⟨false⟩ failingWork
      = (UnitResult.ok (some (Err.other "unit of work failed")),
         Op.beginTx none :: (failingWork { hasTx := true }).2
           ++ [Op.rollbackTx dbRollbackFails.rollbackErr]) :=
  ⟨rfl, rfl, rfl,
   c7_unit_error_returned_unchanged dbRollbackFails ⟨false⟩ failingWork
     (Err.other "unit of work failed") rfl rfl rfl⟩

/-- Claim C9: in an outermost run whose begin succeeds, a panicking unit
of work makes run attempt rollback as part of the deferred cleanup and
re-raise the original panic value unchanged; the scope manager adds no
commit to the trace. -/
theorem c9_panic_rollback_then_reraise (db : DB) (ctx : Ctx)
    (f : Ctx → UnitResult × List Op) (v : Nat)
    (hctx : ctx.hasTx = false) (hb : db.beginErr = none)
    (hf : (f { hasTx := true }).1 = UnitResult.panicked v) :
    WithinTransaction db ctx f
      = (UnitResult.panicked v,
         Op.beginTx none :: (f { hasTx := true }).2
           ++ [Op.rollbackTx db.rollbackErr]) := by
  simp [WithinTransaction, hctx, hb, hf]

/-- Claim C9 witness: a unit of work panicking with value 7 yields a
re-raised panic with value 7 after begin and rollback. -/
theorem c9_panic_rollback_then_reraise_witness :
    (Ctx.mk false).hasTx = false ∧ dbOk.beginErr = none ∧
    (panickingWork { hasTx := true }).1 = UnitResult.panicked 7 ∧
    WithinTransaction dbOk ⟨false⟩ panickingWork
      = (UnitResult.panicked 7,
         Op.beginTx none :: (panickingWork { hasTx := true }).2
           ++ [Op.rollbackTx dbOk.rollbackErr]) :=
  ⟨rfl, rfl, rfl,
   c9_panic_rollback_then_reraise dbOk ⟨false⟩ panickingWork 7 rfl rfl rfl⟩

/-- Claim C8: every capability operation (exec, get, named-exec, query,
select) on either handle variant returns the sql.ErrNoRows sentinel
identically when the underlying store produced it, and wraps any other
underlying error with its classification message while keeping the
original error as the cause. -/
theorem c8_sentinel_identity_and_wrapping (e : Err) (hne : e ≠ Err.noRows) :
    (SqlTx.ExecContext (some Err.noRows) = some Err.noRows ∧
     SqlTx.GetContext (some Err.noRows) = some Err.noRows ∧
     SqlTx.NamedExecContext (some Err.noRows) = some Err.noRows ∧
     SqlTx.QueryContext (some Err.noRows) = some Err.noRows ∧
     SqlTx.SelectContext (some Err.noRows) = some Err.noRows ∧
     SQL.ExecContext (some Err.noRows) = some Err.noRows ∧
     SQL.GetContext (some Err.noRows) = some Err.noRows ∧
     SQL.NamedExecContext (some Err.noRows) = some Err.noRows ∧
     SQL.QueryContext (some Err.noRows) = some Err.noRows ∧
     SQL.SelectContext (some Err.noRows) = some Err.noRows) ∧
    (SqlTx.ExecContext (some e) = some (Err.wrapped "sql error" e) ∧
     SqlTx.GetContext (some e) = some (Err.wrapped "sql error" e) ∧
     SqlTx.NamedExecContext (some e) = some (Err.wrapped "sql error" e) ∧
     SqlTx.QueryContext (some e) = some (Err.wrapped "sql error" e) ∧
     SqlTx.SelectContext (some e) = some (Err.wrapped "sql error" e) ∧
     SQL.ExecContext (some e)
       = some (Err.wrapped "Error when calling sql ExecContext" e) ∧
     SQL.GetContext (some e)
       = some (Err.wrapped "Error when calling sql GetContext" e) ∧
     SQL.NamedExecContext (some e)
       = some (Err.wrapped "Error when calling sql NamedExecContext" e) ∧
     SQL.QueryContext (some e)
       = some (Err.wrapped "Error when calling sql QueryContext" e) ∧
     SQL.SelectContext (some e)
       = some (Err.wrapped "Error when calling sql SelectContext" e)) := by
  refine ⟨⟨rfl, rfl, rfl, rfl, rfl, rfl, rfl, rfl, rfl, rfl⟩, ?_⟩
  cases e with
  | noRows => exact absurd rfl hne
  | wrapped m c => exact ⟨rfl, rfl, rfl, rfl, rfl, rfl, rfl, rfl, rfl, rfl⟩
  | recordNotFound t i => exact ⟨rfl, rfl, rfl, rfl, rfl, rfl, rfl, rfl, rfl, rfl⟩
  | other m => exact ⟨rfl, rfl, rfl, rfl, rfl, rfl, rfl, rfl, rfl, rfl⟩

/-- Claim C8 witness at a concrete non-sentinel error. -/
theorem c8_sentinel_identity_and_wrapping_witness :
    Err.other "driver failure" ≠ Err.noRows ∧
    SqlTx.GetContext (some Err.noRows) = some Err.noRows ∧
    SQL.GetContext (some (Err.other "driver failure"))
      = some (Err.wrapped "Error when calling sql GetContext"
          (Err.other "driver failure")) :=
  ⟨by decide,
   (c8_sentinel_identity_and_wrapping (Err.other "driver failure") (by decide)).1.2.1,
   (c8_sentinel_identity_and_wrapping (Err.other "driver failure") (by decide)).2.2.2.2.2.2.2.1⟩

/-- Claim C10: when the driver reports success for the soft-delete
UPDATE, DeleteByTypeId returns nil even when no live row carries the
typeId (zero rows affected): deleting a nonexistent or already-deleted
object type is success, never a typed not-found result. -/
theorem c10_delete_nonexistent_is_success (rows : List Row) (tid : String)
    (h : ∀ r ∈ rows, r.typeId = tid → r.deleted = true) :
    (MySQLRepository.DeleteByTypeId rows tid none).2.1 = 0 ∧
    (MySQLRepository.DeleteByTypeId rows tid none).2.2 = none := by
  have hfilter : rows.filter (fun r => r.typeId = tid && !r.deleted) = [] := by
    rw [List.filter_eq_nil_iff]
    intro r hr
    intro hcontra
    rcases Bool.and_eq_true_iff.mp hcontra with ⟨h1, h2⟩
    have htid : r.typeId = tid := of_decide_eq_true h1
    have hdel : r.deleted = true := h r hr htid
    rw [hdel] at h2
    exact Bool.false_ne_true ((Bool.not_true).symm.trans h2 |>.symm ▸ rfl)
  constructor
  · show (MySQLRepository.DeleteByTypeId rows tid none).2.1 = 0
    simp [MySQLRepository.DeleteByTypeId, MySQLRepository.execSoftDelete,
          SQL.ExecContext, hfilter]
  · simp [MySQLRepository.DeleteByTypeId, MySQLRepository.execSoftDelete,
          SQL.ExecContext]

/-- Claim C10 witness: deleting typeId "zz", absent from the data set,
affects zero rows and returns nil. -/
theorem c10_delete_nonexistent_is_success_witness :
    (∀ r ∈ rows4, r.typeId = "zz" → r.deleted = true) ∧
    (MySQLRepository.DeleteByTypeId rows4 "zz" none).2.1 = 0 ∧
    (MySQLRepository.DeleteByTypeId rows4 "zz" none).2.2 = none :=
  ⟨by decide, c10_delete_nonexistent_is_success rows4 "zz" (by decide)⟩

/-- Claim C3 (code divergence, evaluated at the failing input): the
backward cursor with beforeValue present mirrors the forward rule and
returns [a, b] on the spec's data set; but with beforeValue absent the
degraded condition "typeId < ?" is bound to AfterId (empty here), not to
BeforeId = "c", so the query matches nothing instead of returning
[a, b]. -/
theorem c3_backward_cursor_binds_afterId :
    MySQLRepository.listObjectTypes beforeParams rows4 = some ["a", "b"] ∧
    (buildQuery beforeNoValueParams).1 = [Cond.typeIdLt] ∧
    (buildQuery beforeNoValueParams).2 = [Val.str "", Val.int 10] ∧
    MySQLRepository.listObjectTypes beforeNoValueParams rows4 = some [] := by
  decide

/-- Claim C4 (code divergence, evaluated at the failing input): the
free-text branch appends the search replacement twice for its single
LIKE placeholder, so with a forward cursor the built query carries 6
bound arguments for 5 placeholders and List yields a driver error
instead of the rows matching both predicates. -/
theorem c4_free_text_binding_misaligned :
    (buildQuery likeParams).2.length = 6 ∧
    ((buildQuery likeParams).1.map condArity).sum + 1 = 5 ∧
    MySQLRepository.listObjectTypes likeParams rows4 = none := by
  decide

/-- Claim C5 counterexample: at sortBy = "objectType" the ordering clause
the source emits (typeId alone) differs from the clause the claim
describes (sortBy then the tie-break identifier). -/
theorem c5_order_clause_counterexample :
    orderByKeys orderParams ≠ specOrderKeys orderParams := by
  decide

/-- Claim C5 as amended: the ordering clause is sortBy then typeId, both
in sortOrder, unless sortBy is the literal "objectType", in which case
the clause is typeId alone; and limit bounds the result count. -/
theorem c5_order_clause_amended :
    (∀ p : ListParams, orderByKeys p = amendedOrderKeys p) ∧
    (∀ (p : ListParams) (rows : List Row) (out : List String),
       MySQLRepository.listObjectTypes p rows = some out →
       out.length ≤ p.Limit) := by
  constructor
  · intro p
    by_cases h : p.SortBy = "objectType" <;>
      simp [orderByKeys, amendedOrderKeys, h]
  · intro p rows out h
    have hlast : ∃ xs, (buildQuery p).2 = xs ++ [Val.int (Int.ofNat p.Limit)] :=
      ⟨_, rfl⟩
    obtain ⟨xs, hxs⟩ := hlast
    simp only [MySQLRepository.listObjectTypes] at h
    split at h
    case isFalse => exact absurd h (by simp)
    case isTrue hc =>
      have hlen : xs.length = (((buildQuery p).1.map condArity)).sum := by
        rw [hxs] at hc
        simpa using hc
      have hdrop : (buildQuery p).2.drop (((buildQuery p).1.map condArity)).sum
          = [Val.int (Int.ofNat p.Limit)] := by
        rw [hxs]
        exact List.drop_left' hlen
      rw [hdrop] at h
      have hout := (Option.some.injEq _ _).mp h
      rw [← hout]
      simp only [List.length_map, Int.toNat_ofNat]
      exact List.length_take_le _ _

/-- Claim C5 amended witness: the forward-cursor example yields three
rows, within the limit of 10. -/
theorem c5_order_clause_amended_witness :
    MySQLRepository.listObjectTypes afterParams rows4 = some ["b", "c", "d"] ∧
    (["b", "c", "d"] : List String).length ≤ afterParams.Limit :=
  ⟨by decide,
   c5_order_clause_amended.2 afterParams rows4 ["b", "c", "d"] (by decide)⟩

/-- Claim C6: with only a forward cursor set, the predicate List builds
equals the spec's forward-cursor rule on every row — sortField above
afterValue OR sortField = afterValue AND id above afterId, the operator
following sortOrder, degrading to a plain id comparison when afterValue
is absent — and on the (1,a),(1,b),(2,c),(3,d) data set the request
afterId = a, afterValue = 1 ascending returns [b, c, d] in order. -/
theorem c6_forward_cursor_gapless (p : ListParams) (r : Row)
    (hq : p.Query = "") (hb : p.BeforeId = "") (ha : p.AfterId ≠ "") :
    condsPred p r = claimForwardPred p r ∧
    MySQLRepository.listObjectTypes afterParams rows4 = some ["b", "c", "d"] := by
  refine ⟨?_, by decide⟩
  rcases hav : p.AfterValue with _ | v <;> rcases hso : p.sortOrder <;>
    simp [condsPred, buildQuery, claimForwardPred, splitArgs, argsFor, evalCond,
          hq, hb, ha, hav, hso, Bool.and_comm]

/-- Claim C6 witness: the request and a row of the data set, with the
hypotheses discharged at the concrete input. -/
theorem c6_forward_cursor_gapless_witness :
    afterParams.Query = "" ∧ afterParams.BeforeId = "" ∧
    afterParams.AfterId ≠ "" ∧
    (condsPred afterParams rowB = claimForwardPred afterParams rowB ∧
     MySQLRepository.listObjectTypes afterParams rows4 = some ["b", "c", "d"]) :=
  ⟨rfl, rfl, by decide, c6_forward_cursor_gapless afterParams rowB rfl rfl (by decide)⟩
